import Mathlib

/-!
Verification of the receipt-ingestion pipeline of `plan_b_customs`.

The definitions below are a shallow embedding of the TypeScript source:
  * `src/components/ReceiptUpload.tsx` — client-side pipeline
    (file validation, EXIF orientation reader, orientation corrector,
    upload orchestrator, completion assembler);
  * `src/app/api/upload/signature/route.ts` — upload request signer;
  * `src/app/api/upload/delete/route.ts` — delete entry point.

Machine integers are modelled as `Nat`; JavaScript `DataView` reads are
modelled in `Except Unit` where `.error ()` stands for the `RangeError`
thrown by an out-of-bounds read (inside a `FileReader` `onload` handler
such a throw means the surrounding promise never settles).  JavaScript
string truthiness (`""` is falsy) is modelled explicitly.
-/

namespace PlanB

/-- A browser `File` object, restricted to the fields the pipeline reads. -/
structure JsFile where
  name : String
  type : String
  size : Nat
  deriving DecidableEq, Repr

/-- The accepted MIME type strings (`validTypes` in `validateFile`,
`ReceiptUpload.tsx` line 97). -/
def validTypes : List String := ["image/jpeg", "image/jpg", "image/png"]

/-- The size ceiling (`maxSize` in `validateFile`, line 98): 10 MiB. -/
def maxSize : Nat := 10 * 1024 * 1024

/-- The rejection message for a wrong MIME type (line 101). -/
def typeErrorMsg : String := "JPEG 또는 PNG 이미지 파일만 업로드 가능합니다."

/-- The rejection message for an oversized file (line 105). -/
def sizeErrorMsg : String := "파일 크기는 10MB 이하여야 합니다."

/-- `validateFile` (`ReceiptUpload.tsx` lines 96–109): returns
`some message` when the file is rejected and `none` when it is admitted. -/
def validateFile (f : JsFile) : Option String :=
  if ¬ validTypes.contains f.type then some typeErrorMsg
  else if f.size > maxSize then some sizeErrorMsg
  else none

/-- The validation loop of `handleFiles` (`ReceiptUpload.tsx` lines
379–387): splits a selected file list into the valid files (in order) and
the invalid files, each paired with its own rejection message. -/
def classifyFiles : List JsFile → List JsFile × List (JsFile × String)
  | [] => ([], [])
  | f :: rest =>
    let (vs, ivs) := classifyFiles rest
    match validateFile f with
    | some e => (vs, (f, e) :: ivs)
    | none => (f :: vs, ivs)

/-- Whether a JS string MIME type names the JPEG raster format
(the browser reports it as `image/jpeg` or the legacy alias `image/jpg`). -/
def isJpegMime (t : String) : Prop := t = "image/jpeg" ∨ t = "image/jpg"

/-- Whether a JS string MIME type names the PNG raster format. -/
def isPngMime (t : String) : Prop := t = "image/png"

/-! ### Orientation Reader (`getImageOrientation`, lines 114–159) -/

/-- The byte buffer handed to the `DataView` (the first 64 KiB of the file). -/
abbrev Bytes := List Nat

/-- Read one byte; an out-of-bounds index throws (`.error ()`). -/
def byteAt (b : Bytes) (i : Nat) : Except Unit Nat :=
  match b.get? i with
  | some v => .ok v
  | none => .error ()

/-- `DataView.getUint16(off, littleEndian)`: reads two bytes, throwing a
`RangeError` when fewer than two bytes remain. -/
def getUint16 (b : Bytes) (off : Nat) (little : Bool) : Except Unit Nat :=
  match byteAt b off, byteAt b (off + 1) with
  | .ok b0, .ok b1 => .ok (if little then b1 * 256 + b0 else b0 * 256 + b1)
  | .error e, _ => .error e
  | _, .error e => .error e

/-- `DataView.getUint32(off, littleEndian)`. -/
def getUint32 (b : Bytes) (off : Nat) (little : Bool) : Except Unit Nat :=
  match byteAt b off, byteAt b (off + 1), byteAt b (off + 2), byteAt b (off + 3) with
  | .ok b0, .ok b1, .ok b2, .ok b3 =>
    .ok (if little then ((b3 * 256 + b2) * 256 + b1) * 256 + b0
         else ((b0 * 256 + b1) * 256 + b2) * 256 + b3)
  | .error e, _, _, _ => .error e
  | _, .error e, _, _ => .error e
  | _, _, .error e, _ => .error e
  | _, _, _, .error e => .error e

/-- The entry loop of `getImageOrientation` (lines 140–147): scan the IFD
entries from index `i`, `remaining` entries left, returning the orientation
tag's 16-bit value when tag `0x0112` is found. -/
def findOrientation (view : Bytes) (little : Bool) (ifdPointer : Nat) :
    Nat → Nat → Except Unit (Option Nat)
  | _, 0 => .ok none
  | i, r + 1 =>
    let entryOffset := ifdPointer + 2 + i * 12
    match getUint16 view entryOffset little with
    | .error e => .error e
    | .ok tag =>
      if tag = 0x0112 then
        match getUint16 view (entryOffset + 8) little with
        | .error e => .error e
        | .ok v => .ok (some v)
      else findOrientation view little ifdPointer (i + 1) r

/-- The TIFF-header portion of `getImageOrientation` (lines 131–147):
reads the byte-order marker, checks the TIFF magic — note the source reads
the magic at `tiffOffset + 2` with `false` (big-endian) regardless of the
declared byte order — then walks the 0th IFD.  Returns `some v` when the
handler resolves with `v`, `none` when control falls back to the segment
scan loop. -/
def parseTiff (view : Bytes) (tiffOffset : Nat) : Except Unit (Option Nat) :=
  match getUint16 view tiffOffset false with
  | .error e => .error e
  | .ok endianWord =>
    let isLittleEndian := endianWord = 0x4949
    match getUint16 view (tiffOffset + 2) false with
    | .error e => .error e
    | .ok magic =>
      if magic ≠ 0x002a then .ok (some 1)
      else
        match getUint32 view (tiffOffset + 4) isLittleEndian with
        | .error e => .error e
        | .ok ifdOffset =>
          let ifdPointer := tiffOffset + ifdOffset
          match getUint16 view ifdPointer isLittleEndian with
          | .error e => .error e
          | .ok numEntries => findOrientation view isLittleEndian ifdPointer 0 numEntries

/-- The `while (offset < length)` segment scan of `getImageOrientation`
(lines 125–153). -/
def scanSegments (view : Bytes) (offset : Nat) : Except Unit Nat :=
  if h : offset < view.length then
    match getUint16 view offset false with
    | .error e => .error e
    | .ok marker =>
      if marker = 0xffe1 then
        match getUint16 view (offset + 2) false with
        | .error e => .error e
        | .ok exifLength =>
          match getUint32 view (offset + 4) false with
          | .error e => .error e
          | .ok sig =>
            if sig = 0x45786966 then
              match parseTiff view (offset + 10) with
              | .error e => .error e
              | .ok (some v) => .ok v
              | .ok none => scanSegments view (offset + exifLength + 2)
            else scanSegments view (offset + exifLength + 2)
      else scanSegments view (offset + 2)
  else .ok 1
termination_by view.length - offset
decreasing_by
  all_goals omega

/-- `getImageOrientation` (lines 114–159) as a function of the byte buffer
read from the file: `.ok v` means the promise resolves with `v`;
`.error ()` means an out-of-bounds `DataView` read threw inside the
`onload` handler, so the promise never settles. -/
def getImageOrientation (view : Bytes) : Except Unit Nat :=
  match getUint16 view 0 false with
  | .error e => .error e
  | .ok soi => if soi ≠ 0xffd8 then .ok 1 else scanSegments view 2

/-! ### Orientation Corrector (`rotateImage`, lines 164–257) -/

/-- The canvas transform selected by the `switch (orientation)` of
`rotateImage` (lines 190–218): rotation in degrees, the two axis flips,
and whether output width/height are swapped. -/
structure TransformParams where
  rotate : Int
  flipX : Bool
  flipY : Bool
  swapDims : Bool
  deriving DecidableEq, Repr

/-- The `switch (orientation)` of `rotateImage`: codes outside 2..8 leave
every setting at its default. -/
def orientationTransform : Nat → TransformParams
  | 2 => ⟨0, true, false, false⟩
  | 3 => ⟨180, false, false, false⟩
  | 4 => ⟨0, false, true, false⟩
  | 5 => ⟨90, true, false, true⟩
  | 6 => ⟨90, false, false, true⟩
  | 7 => ⟨-90, true, false, true⟩
  | 8 => ⟨-90, false, false, true⟩
  | _ => ⟨0, false, false, false⟩

/-- What `rotateImage` resolves with: `same f` is the early
`resolve(file)` — the identical `File` object, no decode and no
re-encode; `reencoded f t q` is a new `File` produced by drawing onto a
canvas with transform `t` and re-encoding at quality `q` percent. -/
inductive RotateResult where
  | same (f : JsFile)
  | reencoded (f : JsFile) (t : TransformParams) (quality : Nat)
  deriving DecidableEq, Repr

/-- `rotateImage` (lines 164–257) on the happy path: orientation 1 short-
circuits to the input file itself (line 166–170); otherwise the canvas
pipeline runs with the transform of `orientationTransform` and
`canvas.toBlob(..., file.type, 0.95)`. -/
def rotateImage (f : JsFile) (orientation : Nat) : RotateResult :=
  if orientation = 1 then .same f
  else .reencoded f (orientationTransform orientation) 95

/-! ### Upload Orchestrator state (`FileUploadState`, lines 44–51) -/

/-- The per-file status union `'idle' | 'uploading' | 'success' | 'error'`
(spec names: pending, in-flight, succeeded, failed). -/
inductive UploadStatus where
  | idle
  | uploading
  | success
  | error
  deriving DecidableEq, Repr

/-- `DriveUploadResult` (lines 17–42), restricted to the fields the
completion assembler reads. -/
structure DriveUploadResult where
  fileId : String
  name : Option String := none
  webViewLink : Option String := none
  webContentLink : Option String := none
  url : Option String := none
  format : Option String := none
  width : Option Nat := none
  height : Option Nat := none
  bytes : Option Nat := none
  asset_id : Option String := none
  public_id : Option String := none
  version : Option Nat := none
  resource_type : Option String := none
  type : Option String := none
  created_at : Option String := none
  asset_folder : Option String := none
  display_name : Option String := none
  secure_url : Option String := none
  processed_url : Option String := none
  deriving DecidableEq, Repr

/-- `FileUploadState` (lines 44–51). -/
structure FileUploadState where
  file : JsFile
  rotatedFile : Option JsFile := none
  preview : String := ""
  status : UploadStatus
  result : Option DriveUploadResult := none
  error : Option String := none
  deriving DecidableEq, Repr

/-- `isAllUploadsComplete` (lines 88–90). -/
def isAllUploadsComplete (files : List FileUploadState) : Bool :=
  files.length > 0 &&
    files.all (fun file => file.status == .success || file.status == .error)

/-! ### Session index assignment (`handleFiles`, lines 423–432, and the
removal handlers, lines 483–554) -/

/-- One user-visible event of a session: `added n` is a `handleFiles`
call whose validation admitted `n` files; `remove i` is `handleRemove` of
the candidate at position `i`; `removeAll` is `handleRemoveAll`. -/
inductive SessionEvent where
  | added (n : Nat)
  | remove (i : Nat)
  | removeAll
  deriving DecidableEq, Repr

/-- The session state: `current` holds the upload index of every candidate
now in the `files` array (in array order) and `assigned` logs every index
ever handed to `uploadFile`, in admission order. -/
structure SessionState where
  current : List Nat
  assigned : List Nat
  deriving DecidableEq, Repr

/-- One session step.  An admission computes
`existingFileCount = files.length` and assigns
`existingFileCount + i + 1` to the `i`-th new file (lines 425–431);
a removal filters the candidate out (line 514); `handleRemoveAll` resets
the array (line 553). -/
def stepSession (st : SessionState) : SessionEvent → SessionState
  | .added n =>
    let newIdx := (List.range n).map (fun i => st.current.length + i + 1)
    ⟨st.current ++ newIdx, st.assigned ++ newIdx⟩
  | .remove i => ⟨st.current.eraseIdx i, st.assigned⟩
  | .removeAll => ⟨[], st.assigned⟩

/-- A whole session from the initial empty batch. -/
def runSession (evs : List SessionEvent) : SessionState :=
  evs.foldl stepSession ⟨[], []⟩

/-! ### JavaScript string truthiness helpers -/

/-- Truthiness of an optional JS string: `undefined` and `""` are falsy. -/
def strTruthy : Option String → Bool
  | none => false
  | some s => s ≠ ""

/-- JS `a || b || … || last` over a chain of optional strings ending in a
plain string. -/
def firstTruthy : List (Option String) → String → String
  | [], last => last
  | a :: rest, last => if strTruthy a then a.getD "" else firstTruthy rest last

/-! ### Completion Assembler (the 완료하기 button handler, lines 720–799) -/

/-- The canonical record built for each succeeded candidate
(lines 730–746). -/
structure CanonicalRecord where
  asset_id : String
  public_id : String
  format : String
  version : Nat
  resource_type : String
  type : String
  created_at : String
  bytes : Nat
  width : Nat
  height : Nat
  asset_folder : Option String
  display_name : String
  url : String
  secure_url : String
  processed_url : Option String
  deriving DecidableEq, Repr

/-- The record-normalisation of the completion handler (lines 725–747):
`r` is the candidate's stored `DriveUploadResult`, `fileName` the original
file's name, `invoiceName` the batch-level collection name, `nowIso` the
value `new Date().toISOString()` would produce. -/
def toCanonicalRecord (r : DriveUploadResult) (fileName : String)
    (invoiceName : Option String) (nowIso : String) : CanonicalRecord :=
  let imageUrl := firstTruthy
    [r.processed_url, r.secure_url, r.webViewLink, r.url, r.webContentLink] ""
  { asset_id := firstTruthy [r.asset_id] ""
    public_id := if strTruthy r.public_id then r.public_id.getD "" else r.fileId
    format := firstTruthy [r.format] ""
    version := r.version.getD 0
    resource_type := firstTruthy [r.resource_type] "image"
    type := firstTruthy [r.type] "upload"
    created_at := firstTruthy [r.created_at] nowIso
    bytes := r.bytes.getD 0
    width := r.width.getD 0
    height := r.height.getD 0
    asset_folder :=
      if strTruthy r.asset_folder then r.asset_folder
      else if strTruthy invoiceName then invoiceName else none
    display_name := firstTruthy [r.display_name, r.name] fileName
    url := firstTruthy [r.url, r.webContentLink] ""
    secure_url := imageUrl
    processed_url := r.processed_url }

/-- `successfulFiles` (lines 723–747): the candidates whose status is
`'success'` and whose result is present, each normalised. -/
def successfulFiles (files : List FileUploadState) (invoiceName : Option String)
    (nowIso : String) : List CanonicalRecord :=
  files.filterMap (fun f =>
    if f.status == .success then
      f.result.map (fun r => toCanonicalRecord r f.file.name invoiceName nowIso)
    else none)

/-- What the click handler does after assembling `successfulFiles`:
either the guard at lines 750–753 fires (alert, `return`, no webhook
request issued) or the payload of lines 765–772 is posted to the webhook. -/
inductive CompleteAction where
  | refuse (message : String)
  | submit (files : List CanonicalRecord)
      (userName userEmail userInvoiceName : String)
  deriving DecidableEq, Repr

/-- The alert message of line 751. -/
def emptySubmitMsg : String :=
  "업로드된 영수증이 없습니다. 영수증을 업로드한 후 다시 시도해주세요."

/-- The completion click handler (lines 720–780) up to the webhook call. -/
def handleCompleteClick (files : List FileUploadState)
    (invoiceName userName userEmail : Option String) (nowIso : String) :
    CompleteAction :=
  let succeeded := successfulFiles files invoiceName nowIso
  if succeeded.length = 0 then .refuse emptySubmitMsg
  else .submit succeeded (userName.getD "") (userEmail.getD "") (invoiceName.getD "")

/-! ### Upload Request Signer (`src/app/api/upload/signature/route.ts`) -/

/-- The JSON body of a signing request (line 24); `userName`/`userPhone`
are read but never used for signing. -/
structure SignatureRequest where
  invoiceName : Option String := none
  fileIndex : Option String := none
  publicId : Option String := none
  deriving DecidableEq, Repr

/-- `finalPublicId` (lines 35–42): `receipts/<invoiceName>_<index>` where
the index falls back to `Date.now().toString()` (`nowMs`) when `fileIndex`
is falsy. -/
def finalPublicId (r : SignatureRequest) (nowMs : Nat) : Option String :=
  if strTruthy r.invoiceName then
    let index := if strTruthy r.fileIndex then r.fileIndex.getD "" else toString nowMs
    some ("receipts/" ++ r.invoiceName.getD "" ++ "_" ++ index)
  else if strTruthy r.publicId then r.publicId
  else none

/-- The `params` object returned to the caller (lines 48–60): `context` is
never set by this route. -/
structure SignParams where
  asset_folder : Option String := none
  public_id : Option String := none
  folder : Option String := none
  context : Option String := none
  deriving DecidableEq, Repr

/-- Building `params` (lines 48–60). -/
def buildParams (r : SignatureRequest) (nowMs : Nat) : SignParams :=
  let fpid := finalPublicId r nowMs
  { asset_folder := if strTruthy r.invoiceName then r.invoiceName else none
    public_id := if strTruthy fpid then fpid else none
    folder := if strTruthy fpid then none else some "receipts"
    context := none }

/-- `Math.round(new Date().getTime() / 1000)` (line 68), with `nowMs` the
millisecond clock value. -/
def timestampOf (nowMs : Nat) : Nat := (nowMs + 500) / 1000

/-- `signatureParams` (lines 71–87) as an association list in insertion
order: each `params` field is copied when truthy, then the timestamp. -/
def signatureParams (r : SignatureRequest) (nowMs : Nat) : List (String × String) :=
  let p := buildParams r nowMs
  (if strTruthy p.public_id then [("public_id", p.public_id.getD "")] else [])
  ++ (if strTruthy p.folder then [("folder", p.folder.getD "")] else [])
  ++ (if strTruthy p.context then [("context", p.context.getD "")] else [])
  ++ (if strTruthy p.asset_folder then [("asset_folder", p.asset_folder.getD "")] else [])
  ++ [("timestamp", toString (timestampOf nowMs))]

/-- Lexicographic comparison of char lists by code point — the order JS
`Array.sort()` applies to strings (code-unit order; identical on the ASCII
keys used here). -/
def charListLe : List Char → List Char → Bool
  | [], _ => true
  | _ :: _, [] => false
  | a :: as, b :: bs =>
    if a.val < b.val then true
    else if b.val < a.val then false
    else charListLe as bs

/-- JS default string sort order. -/
def jsLe (s t : String) : Bool := charListLe s.data t.data

/-- `stringToSign` (lines 89–92): keys sorted by JS `Array.sort()`
(lexicographic code-unit order — a stable insertion sort gives the same
ascending order), rendered `key=value` and joined by `&`.  This is the
string the Cloudinary signing primitive hashes together with the secret. -/
def stringToSign (r : SignatureRequest) (nowMs : Nat) : String :=
  let sp := signatureParams r nowMs
  let sortedKeys := (sp.map Prod.fst).insertionSort (fun a b => jsLe a b = true)
  String.intercalate "&" (sortedKeys.map (fun k => k ++ "=" ++ ((sp.lookup k).getD "")))

/-- Follows the spec's words (for comparison with `stringToSign`): rebuild
the signed string from the `params` field returned to the caller together
with the returned `timestamp` — render every present entry as `key=value`,
sort the keys lexicographically, join with `&`. -/
def specSignedString (p : SignParams) (timestamp : Nat) : String :=
  let pairs :=
    (match p.asset_folder with | some v => [("asset_folder", v)] | none => [])
    ++ (match p.public_id with | some v => [("public_id", v)] | none => [])
    ++ (match p.folder with | some v => [("folder", v)] | none => [])
    ++ (match p.context with | some v => [("context", v)] | none => [])
    ++ [("timestamp", toString timestamp)]
  let sortedKeys := (pairs.map Prod.fst).insertionSort (fun a b => jsLe a b = true)
  String.intercalate "&" (sortedKeys.map (fun k => k ++ "=" ++ ((pairs.lookup k).getD "")))

/-! ### Delete entry point (`src/app/api/upload/delete/route.ts`) -/

/-- The JSON response of the delete route, with its HTTP status. -/
structure DeleteResponse where
  status : Nat
  success : Option Bool
  message : String
  result : Option String
  deriving DecidableEq, Repr

/-- Line 26. -/
def deleteMissingIdMsg : String := "public_id가 필요합니다."

/-- Lines 38–39. -/
def deleteConfigMsg : String :=
  "Cloudinary 설정이 완료되지 않았습니다. .env.local 파일을 확인해주세요."

/-- Line 59. -/
def deleteOkMsg : String := "이미지가 삭제되었습니다."

/-- Line 68. -/
def deleteFailMsg : String := "이미지 삭제에 실패했습니다."

/-- The POST handler of the delete route (lines 19–73) on the non-throwing
path: `public_id` is `none` when the body field is absent or not a string,
`configured` is whether the three Cloudinary environment values are set,
and `destroyResult` is the `result` field Cloudinary's `uploader.destroy`
returned (`"ok"`, `"not found"`, …). -/
def deletePost (public_id : Option String) (configured : Bool)
    (destroyResult : String) : DeleteResponse :=
  if ¬ strTruthy public_id then ⟨400, none, deleteMissingIdMsg, none⟩
  else if ¬ configured then ⟨500, none, deleteConfigMsg, none⟩
  else if destroyResult = "ok" ∨ destroyResult = "not found" then
    ⟨200, some true, deleteOkMsg, some destroyResult⟩
  else ⟨500, some false, deleteFailMsg, some destroyResult⟩

/-- A minimal JPEG byte buffer whose EXIF block declares big-endian byte
order (`MM`, TIFF magic `00 2a`) and carries one IFD entry: the
orientation tag `0x0112` with value 6. -/
def exifBigEndian : Bytes :=
  [0xff, 0xd8, 0xff, 0xe1, 0x00, 0x1e, 0x45, 0x78, 0x69, 0x66, 0x00, 0x00,
   0x4d, 0x4d, 0x00, 0x2a, 0x00, 0x00, 0x00, 0x08,
   0x00, 0x01,
   0x01, 0x12, 0x00, 0x03, 0x00, 0x00, 0x00, 0x01, 0x00, 0x06, 0x00, 0x00]

/-- The same EXIF payload rendered little-endian (`II`, TIFF magic
`2a 00`): every multi-byte field byte-swapped, orientation tag `0x0112`
with value 6. -/
def exifLittleEndian : Bytes :=
  [0xff, 0xd8, 0xff, 0xe1, 0x00, 0x1e, 0x45, 0x78, 0x69, 0x66, 0x00, 0x00,
   0x49, 0x49, 0x2a, 0x00, 0x08, 0x00, 0x00, 0x00,
   0x01, 0x00,
   0x12, 0x01, 0x03, 0x00, 0x01, 0x00, 0x00, 0x00, 0x06, 0x00, 0x00, 0x00]

/-- Whether a session event is an admission. -/
def isAdded : SessionEvent → Bool
  | .added _ => true
  | _ => false

/-! ## Theorems -/

/-- C2 (against the source): the reader decodes a big-endian tag
directory, but for the byte-for-byte little-endian rendering of the same
directory the TIFF-magic comparison at `tiffOffset + 2` is performed
big-endian (`0x2a00 ≠ 0x002a`), so the reader resolves 1 instead of the
orientation value 6. -/
theorem orientation_littleEndian_not_honored :
    getImageOrientation exifBigEndian = .ok 6 ∧
    getImageOrientation exifLittleEndian = .ok 1 := by
  constructor
  · simp +decide [getImageOrientation, scanSegments, parseTiff, findOrientation,
      getUint16, getUint32, byteAt, exifBigEndian]
  · simp +decide [getImageOrientation, scanSegments, parseTiff, findOrientation,
      getUint16, getUint32, byteAt, exifLittleEndian]

/-- C3 (against the source): on a buffer shorter than the fields it reads
the reader does not settle with a value — the empty buffer (a 0-byte file)
throws on the very first `getUint16(0)`, and the 3-byte prefix
`ff d8 ff` throws inside the segment-scan loop; the thrown `RangeError`
(`.error ()`) means the promise never resolves. -/
theorem orientation_reader_throws_on_truncated :
    getImageOrientation [] = .error () ∧
    getImageOrientation [0xff, 0xd8, 0xff] = .error () := by
  constructor
  · simp +decide [getImageOrientation, getUint16, byteAt]
  · simp +decide [getImageOrientation, scanSegments, getUint16, byteAt]

/-- C4 counterexample: add one file, remove it, add another — both
admission events assign index 1, so across the session the assigned
indices are `[1, 1]`: neither strictly increasing nor collision-free. -/
theorem session_indices_repeat_after_removal :
    (runSession [.added 1, .remove 0, .added 1]).assigned = [1, 1] ∧
    ¬ List.Sorted (· < ·) (runSession [.added 1, .remove 0, .added 1]).assigned := by
  have h : (runSession [.added 1, .remove 0, .added 1]).assigned = [1, 1] := rfl
  refine ⟨h, ?_⟩
  rw [h]
  intro hs
  rw [List.sorted_cons] at hs
  exact absurd (hs.1 1 (by simp)) (lt_irrefl 1)

/-- One admission starting from a gap-free state extends both the batch
and the assignment log gap-free. -/
lemma stepSession_added_range (k n : Nat) :
    stepSession ⟨List.range' 1 k, List.range' 1 k⟩ (.added n) =
      ⟨List.range' 1 (n + k), List.range' 1 (n + k)⟩ := by
  have hlen : (List.range' 1 k).length = k := by simp
  have hmap : (List.range n).map (fun i => (List.range' 1 k).length + i + 1) =
      List.range' (1 + k) n := by
    rw [hlen, List.range'_eq_map_range]
    apply List.map_congr_left
    intro i _
    omega
  simp only [stepSession, hmap, List.range'_append_1]

/-- A removal-free event sequence keeps both lists of the session state a
gap-free range. -/
lemma foldl_added_range (evs : List SessionEvent)
    (h : ∀ e ∈ evs, isAdded e = true) :
    ∀ k, ∃ m, evs.foldl stepSession ⟨List.range' 1 k, List.range' 1 k⟩ =
      ⟨List.range' 1 m, List.range' 1 m⟩ := by
  induction evs with
  | nil => intro k; exact ⟨k, rfl⟩
  | cons e rest ih =>
    intro k
    obtain ⟨n, rfl⟩ : ∃ n, e = .added n := by
      cases e with
      | added n => exact ⟨n, rfl⟩
      | remove i => simpa [isAdded] using h (.remove i) (by simp)
      | removeAll => simpa [isAdded] using h .removeAll (by simp)
    rw [List.foldl_cons, stepSession_added_range]
    exact ih (fun e he => h e (by simp [he])) (n + k)

/-- C4 amended: in a session whose events are all admissions (no
removals), the assigned indices are exactly `1, 2, …, N` — strictly
increasing, gap-free, 1-based — and they coincide with the live batch. -/
theorem session_indices_gapfree_without_removals (evs : List SessionEvent)
    (h : ∀ e ∈ evs, isAdded e = true) :
    (runSession evs).assigned =
      List.range' 1 (runSession evs).assigned.length ∧
    (runSession evs).current = (runSession evs).assigned := by
  obtain ⟨m, hm⟩ := foldl_added_range evs h 0
  have h0 : (⟨[], []⟩ : SessionState) = ⟨List.range' 1 0, List.range' 1 0⟩ := rfl
  rw [runSession, h0, hm]
  simp [List.length_range']

/-- Witness for the amended C4: two admission events of 2 then 3 files
yield indices 1..5. -/
theorem session_indices_gapfree_witness :
    (runSession [.added 2, .added 3]).assigned =
      List.range' 1 (runSession [.added 2, .added 3]).assigned.length :=
  (session_indices_gapfree_without_removals [.added 2, .added 3] (by decide)).1

/-- C5: the derived "all settled" predicate holds iff the batch is
non-empty and every candidate's status is succeeded (`success`) or failed
(`error`); it is false for the empty batch and while any candidate is
pending (`idle`) or in-flight (`uploading`). -/
theorem allSettled_iff (files : List FileUploadState) :
    isAllUploadsComplete files = true ↔
      files ≠ [] ∧ ∀ f ∈ files, f.status = .success ∨ f.status = .error := by
  simp [isAllUploadsComplete, List.length_pos]

/-- C6: when the orientation code is 1, the Orientation Corrector resolves
with the input `File` object itself — the same identity, no decode and no
re-encode. -/
theorem rotateImage_identity_on_one (f : JsFile) : rotateImage f 1 = .same f := rfl

/-- C9: when storage reports the object already absent (`"not found"`),
the delete entry point answers exactly like `"ok"`: HTTP 200 with
`success: true` — deletion is idempotent. -/
theorem deletePost_notFound_success (pid : String) (h : pid ≠ "") :
    deletePost (some pid) true "not found" =
      ⟨200, some true, deleteOkMsg, some "not found"⟩ ∧
    (deletePost (some pid) true "not found").status =
      (deletePost (some pid) true "ok").status ∧
    (deletePost (some pid) true "not found").success =
      (deletePost (some pid) true "ok").success := by
  simp [deletePost, strTruthy, h]

/-- Witness for C9 at a concrete object identifier. -/
theorem deletePost_notFound_success_witness :
    deletePost (some "receipts/Kim_20250110_1") true "not found" =
      ⟨200, some true, deleteOkMsg, some "not found"⟩ :=
  (deletePost_notFound_success "receipts/Kim_20250110_1" (by decide)).1

/-- C10: for a file of an accepted MIME type the 10 MiB ceiling is
inclusive — the file is admitted iff its size is at most
`10 * 1024 * 1024` bytes, and a strictly larger file is rejected with the
size-limit message. -/
theorem validateFile_size_boundary (f : JsFile)
    (h : validTypes.contains f.type = true) :
    (validateFile f = none ↔ f.size ≤ 10 * 1024 * 1024) ∧
    (f.size > 10 * 1024 * 1024 → validateFile f = some sizeErrorMsg) := by
  have hm : f.type ∈ validTypes := by simpa using h
  have hc : validateFile f = if maxSize < f.size then some sizeErrorMsg else none := by
    simp [validateFile, hm]
  constructor
  · rw [hc]
    by_cases hs : maxSize < f.size
    · rw [if_pos hs]
      simp [maxSize] at hs
      simp
      omega
    · rw [if_neg hs]
      simp [maxSize] at hs ⊢
      omega
  · intro hgt
    have hgt' : maxSize < f.size := by simp only [maxSize]; omega
    rw [hc, if_pos hgt']

/-- Witness for C10: a JPEG file of exactly 10 MiB passes validation. -/
theorem validateFile_size_boundary_witness :
    validateFile ⟨"r.jpg", "image/jpeg", 10 * 1024 * 1024⟩ = none :=
  (validateFile_size_boundary ⟨"r.jpg", "image/jpeg", 10 * 1024 * 1024⟩
    (by decide)).1.mpr (by norm_num)

/-- C7: when the batch has settled and no candidate succeeded, the
completion handler refuses to submit — no webhook request is issued and
the retry message is shown. -/
theorem completion_refuses_on_zero_success (files : List FileUploadState)
    (invoiceName userName userEmail : Option String) (nowIso : String)
    (hsettled : isAllUploadsComplete files = true)
    (hnone : ∀ f ∈ files, f.status ≠ .success) :
    handleCompleteClick files invoiceName userName userEmail nowIso =
      .refuse emptySubmitMsg := by
  have hempty : successfulFiles files invoiceName nowIso = [] := by
    rw [successfulFiles, List.filterMap_eq_nil_iff]
    intro f hf
    simp [hnone f hf]
  simp [handleCompleteClick, hempty]

/-- Admission succeeds iff the MIME type is in the accepted list and the
size is within the ceiling. -/
lemma validateFile_none_iff (f : JsFile) :
    validateFile f = none ↔ f.type ∈ validTypes ∧ f.size ≤ maxSize := by
  unfold validateFile
  by_cases hc : validTypes.contains f.type = true
  · have hmem : f.type ∈ validTypes := by simpa using hc
    rw [if_neg (by simpa using hmem)]
    split_ifs with hs
    · simp [hmem]
      omega
    · simp [hmem]
      omega
  · have hmem : f.type ∉ validTypes := by simpa using hc
    rw [if_pos (by simpa using hmem)]
    simp [hmem]

/-- The accepted MIME strings are exactly the spellings of the JPEG and
PNG raster formats. -/
lemma mem_validTypes_iff (t : String) :
    t ∈ validTypes ↔ isJpegMime t ∨ isPngMime t := by
  simp [validTypes, isJpegMime, isPngMime, or_assoc]

/-- The admitted files of one `handleFiles` call are exactly the files
passing validation, in order. -/
lemma classifyFiles_fst (files : List JsFile) :
    (classifyFiles files).1 = files.filter (fun f => (validateFile f).isNone) := by
  induction files with
  | nil => rfl
  | cons f rest ih =>
    rcases hrest : classifyFiles rest with ⟨vs, ivs⟩
    rw [hrest] at ih
    cases hv : validateFile f with
    | some e => simp [classifyFiles, hrest, hv, List.filter_cons, ih]
    | none => simp [classifyFiles, hrest, hv, List.filter_cons, ih]

/-- Every reported rejection pairs a file with its own validation
message. -/
lemma classifyFiles_snd_sound (files : List JsFile) :
    ∀ p ∈ (classifyFiles files).2, validateFile p.1 = some p.2 := by
  induction files with
  | nil => intro p hp; cases hp
  | cons f rest ih =>
    rcases hrest : classifyFiles rest with ⟨vs, ivs⟩
    rw [hrest] at ih
    intro p hp
    cases hv : validateFile f with
    | some e =>
      simp [classifyFiles, hrest, hv] at hp
      rcases hp with hp | hp
      · subst hp; exact hv
      · exact ih p hp
    | none =>
      simp [classifyFiles, hrest, hv] at hp
      exact ih p hp

/-- The rejected files of one `handleFiles` call are exactly the files
failing validation, in order. -/
lemma classifyFiles_snd_fst (files : List JsFile) :
    (classifyFiles files).2.map Prod.fst =
      files.filter (fun f => (validateFile f).isSome) := by
  induction files with
  | nil => rfl
  | cons f rest ih =>
    rcases hrest : classifyFiles rest with ⟨vs, ivs⟩
    rw [hrest] at ih
    cases hv : validateFile f with
    | some e => simp [classifyFiles, hrest, hv, List.filter_cons, ih]
    | none => simp [classifyFiles, hrest, hv, List.filter_cons, ih]

/-- C8: on file admission exactly the two raster formats JPEG and PNG are
accepted, the 10 MiB ceiling is enforced, and rejection is per file: the
valid members of a mixed batch are exactly the admitted ones (in order)
while each invalid file is paired with its own rejection message. -/
theorem admission_partial_validation (files : List JsFile) :
    (∀ f : JsFile, validateFile f = none ↔
        (isJpegMime f.type ∨ isPngMime f.type) ∧ f.size ≤ maxSize) ∧
    (classifyFiles files).1 = files.filter (fun f => (validateFile f).isNone) ∧
    (∀ p ∈ (classifyFiles files).2, validateFile p.1 = some p.2) ∧
    (classifyFiles files).2.map Prod.fst =
      files.filter (fun f => (validateFile f).isSome) := by
  refine ⟨?_, classifyFiles_fst files, classifyFiles_snd_sound files,
    classifyFiles_snd_fst files⟩
  intro f
  rw [validateFile_none_iff, mem_validTypes_iff]

/-- Witness for C8 at the spec's mixed-batch scenario: an oversized PNG is
reported with the size-limit message. -/
theorem admission_partial_validation_witness :
    validateFile ⟨"d.png", "image/png", 10485761⟩ = some sizeErrorMsg :=
  (admission_partial_validation [⟨"d.png", "image/png", 10485761⟩]).2.2.1
    (⟨"d.png", "image/png", 10485761⟩, sizeErrorMsg) (by decide)

/-- Witness for C7: two admitted files whose uploads both failed — the
batch is settled, submission is blocked with the retry message. -/
theorem completion_refuses_on_zero_success_witness :
    handleCompleteClick
      [{ file := ⟨"a.jpg", "image/jpeg", 100⟩, status := .error },
       { file := ⟨"b.jpg", "image/jpeg", 200⟩, status := .error }]
      (some "Kim_20250110") (some "Kim") none "2025-01-10T00:00:00.000Z" =
      .refuse emptySubmitMsg :=
  completion_refuses_on_zero_success _ _ _ _ _ (by decide) (by decide)


/-- `strTruthy` of an absent value. -/
lemma strTruthy_none_eq : strTruthy none = false := rfl

lemma strTruthy_some_iff (s : String) : strTruthy (some s) = true ↔ s ≠ "" := by
  simp [strTruthy]

lemma eq_empty_of_length_zero (s : String) (h : s.length = 0) : s = "" := by
  cases s with
  | mk data =>
    have hd : data = [] := by simpa [String.length] using h
    subst hd
    rfl

lemma append_ne_empty (s t : String) (h : s ≠ "") : s ++ t ≠ "" := by
  intro he
  apply h
  have hl := congrArg String.length he
  rw [String.length_append] at hl
  exact eq_empty_of_length_zero s (by simpa using Nat.eq_zero_of_add_eq_zero_right hl)

lemma bool_eq_false_of_ne_true {b : Bool} (h : ¬ b = true) : b = false := by
  cases b
  · rfl
  · exact absurd rfl h

/-- C1 counterexample: for the spec's own scenario
(`collectionName = "Kim_20250110"` with a file index) the string built at
signing time carries the `asset_folder` key as well, so it is not the
claimed `public_id=…&timestamp=…` two-key string. -/
theorem signedString_includes_assetFolder :
    stringToSign ⟨some "Kim_20250110", some "3", none⟩ 1736467200000 =
      "asset_folder=Kim_20250110&public_id=receipts/Kim_20250110_3&timestamp=1736467200" ∧
    stringToSign ⟨some "Kim_20250110", some "3", none⟩ 1736467200000 ≠
      "public_id=receipts/Kim_20250110_3&timestamp=1736467200" := by
  constructor
  · decide
  · decide

/-- C1 amended: the signed string is the lexicographically key-sorted
`key=value`/`&` rendering of the participating parameters, reproducible
byte-for-byte from the `params` object returned to the caller together
with the returned timestamp; in the named-collection scenario the
participating keys are exactly `asset_folder`, `public_id` and
`timestamp` (alpha-sorted), not `public_id` and `timestamp` alone. -/
theorem signing_string_reproducible (r : SignatureRequest) (nowMs : Nat) :
    stringToSign r nowMs = specSignedString (buildParams r nowMs) (timestampOf nowMs) ∧
    (strTruthy r.invoiceName = true → strTruthy r.fileIndex = true →
      stringToSign r nowMs =
        "asset_folder=" ++ r.invoiceName.getD "" ++ "&public_id=receipts/" ++
          r.invoiceName.getD "" ++ "_" ++ r.fileIndex.getD "" ++ "&timestamp=" ++
          toString (timestampOf nowMs)) := by
  constructor
  · by_cases hin : strTruthy r.invoiceName = true
    · obtain ⟨name, hname⟩ : ∃ name, r.invoiceName = some name := by
        cases hv : r.invoiceName with
        | none => rw [hv] at hin; simp [strTruthy] at hin
        | some s => exact ⟨s, rfl⟩
      have hin' : strTruthy (some name) = true := hname ▸ hin
      have hname' : name ≠ "" := (strTruthy_some_iff name).mp hin'
      obtain ⟨idx, hfp⟩ :
          ∃ idx, finalPublicId r nowMs = some ("receipts/" ++ name ++ "_" ++ idx) := by
        by_cases hfi : strTruthy r.fileIndex = true
        · exact ⟨r.fileIndex.getD "", by simp [finalPublicId, hname, hin', hfi]⟩
        · exact ⟨toString nowMs,
            by simp [finalPublicId, hname, hin', bool_eq_false_of_ne_true hfi]⟩
      have hpid : ("receipts/" ++ name ++ "_" ++ idx : String) ≠ "" := by
        apply append_ne_empty
        apply append_ne_empty
        apply append_ne_empty
        decide
      have hbp : buildParams r nowMs =
          { asset_folder := some name,
            public_id := some ("receipts/" ++ name ++ "_" ++ idx),
            folder := none, context := none } := by
        simp [buildParams, hfp, hname, hin', strTruthy, hpid, hname']
      have hsp : signatureParams r nowMs =
          [("public_id", "receipts/" ++ name ++ "_" ++ idx),
           ("asset_folder", name),
           ("timestamp", toString (timestampOf nowMs))] := by
        simp [signatureParams, hbp, strTruthy, hpid, hname']
      simp +decide [stringToSign, specSignedString, hsp, hbp, List.lookup,
        List.insertionSort, List.orderedInsert, jsLe, charListLe]
    · have hinf : strTruthy r.invoiceName = false := bool_eq_false_of_ne_true hin
      by_cases hpub : strTruthy r.publicId = true
      · obtain ⟨p, hp⟩ : ∃ p, r.publicId = some p := by
          cases hv : r.publicId with
          | none => rw [hv] at hpub; simp [strTruthy] at hpub
          | some s => exact ⟨s, rfl⟩
        have hp2 : strTruthy (some p) = true := hp ▸ hpub
        have hfp : finalPublicId r nowMs = some p := by
          simp [finalPublicId, hinf, hp, hp2]
        have hbp : buildParams r nowMs =
            { asset_folder := none, public_id := some p, folder := none,
              context := none } := by
          simp [buildParams, hfp, hinf, hp2]
        have hsp : signatureParams r nowMs =
            [("public_id", p), ("timestamp", toString (timestampOf nowMs))] := by
          simp [signatureParams, hbp, hp2, strTruthy_none_eq]
        simp +decide [stringToSign, specSignedString, hsp, hbp, List.lookup,
          List.insertionSort, List.orderedInsert, jsLe, charListLe]
      · have hpubf : strTruthy r.publicId = false := bool_eq_false_of_ne_true hpub
        have hfp : finalPublicId r nowMs = none := by
          simp [finalPublicId, hinf, hpubf]
        have hbp : buildParams r nowMs =
            { asset_folder := none, public_id := none, folder := some "receipts",
              context := none } := by
          simp [buildParams, hfp, hinf, strTruthy_none_eq]
        have hsp : signatureParams r nowMs =
            [("folder", "receipts"), ("timestamp", toString (timestampOf nowMs))] := by
          simp +decide [signatureParams, hbp, strTruthy_none_eq, strTruthy_some_iff]
        simp +decide [stringToSign, specSignedString, hsp, hbp, List.lookup,
          List.insertionSort, List.orderedInsert, jsLe, charListLe]
  · intro hin hfi
    obtain ⟨name, hname⟩ : ∃ name, r.invoiceName = some name := by
      cases hv : r.invoiceName with
      | none => rw [hv] at hin; simp [strTruthy] at hin
      | some s => exact ⟨s, rfl⟩
    have hin' : strTruthy (some name) = true := hname ▸ hin
    have hname' : name ≠ "" := (strTruthy_some_iff name).mp hin'
    have hfp : finalPublicId r nowMs =
        some ("receipts/" ++ name ++ "_" ++ r.fileIndex.getD "") := by
      simp [finalPublicId, hname, hin', hfi]
    have hpid : ("receipts/" ++ name ++ "_" ++ r.fileIndex.getD "" : String) ≠ "" := by
      apply append_ne_empty
      apply append_ne_empty
      apply append_ne_empty
      decide
    have hbp : buildParams r nowMs =
        { asset_folder := some name,
          public_id := some ("receipts/" ++ name ++ "_" ++ r.fileIndex.getD ""),
          folder := none, context := none } := by
      simp [buildParams, hfp, hname, hin', strTruthy, hpid, hname']
    have hsp : signatureParams r nowMs =
        [("public_id", "receipts/" ++ name ++ "_" ++ r.fileIndex.getD ""),
         ("asset_folder", name),
         ("timestamp", toString (timestampOf nowMs))] := by
      simp [signatureParams, hbp, strTruthy, hpid, hname']
    have hrender : stringToSign r nowMs =
        "asset_folder=" ++ name ++ "&" ++
          ("public_id=" ++ ("receipts/" ++ name ++ "_" ++ r.fileIndex.getD "")) ++
          "&" ++ ("timestamp=" ++ toString (timestampOf nowMs)) := by
      simp +decide [stringToSign, hsp, List.lookup,
        List.insertionSort, List.orderedInsert, jsLe, charListLe]
      rfl
    rw [hrender, hname]
    apply String.ext
    simp only [String.data_append, Option.getD_some]
    simp [List.append_assoc]


/-- Witness for C1 (amended) at the spec's scenario input. -/
theorem signing_string_reproducible_witness :
    stringToSign ⟨some "Kim_20250110", some "3", none⟩ 1736467200000 =
      "asset_folder=" ++ (some "Kim_20250110" : Option String).getD "" ++
        "&public_id=receipts/" ++ (some "Kim_20250110" : Option String).getD "" ++
        "_" ++ (some "3" : Option String).getD "" ++ "&timestamp=" ++
        toString (timestampOf 1736467200000) :=
  (signing_string_reproducible ⟨some "Kim_20250110", some "3", none⟩
    1736467200000).2 (by decide) (by decide)

end PlanB
